import Mathlib

/-!
Shallow embedding of `servee/frontendadmin/insert.py` (the `servee` repository).

The file defines `BaseInsert` and `ModelInsert`, plugin classes for a
content-management admin interface.  The host framework (Django) supplies the
ORM, template loading, URL routing and `admin_view` wrapping; those framework
primitives are modelled here as explicit data (an object store as a list,
querysets as a list plus an ordering annotation, responses as an inductive
type) or as function parameters (`admin_view`, `unquote`).

Python exceptions are modelled with `Except`; Python's
`return NotImplementedError` (which returns the exception *class* as an
ordinary value, it does not raise) is modelled by `Except.ok` of a dedicated
value.  Database state is passed explicitly: each view takes the current store
and returns the store after the request together with the response.
-/

/-- Python exception kinds that can arise in the embedded code paths. -/
inductive PyError
  | validationError
  | doesNotExist
  | multipleObjectsReturned
  | attributeError
deriving DecidableEq, Repr

/-- Ordinary Python values returned by the `BaseInsert` stub methods.
`notImplementedErrorVal` stands for the exception *class* `NotImplementedError`
used as a plain value (the source writes `return NotImplementedError`). -/
inductive PyValue
  | notImplementedErrorVal
deriving DecidableEq, Repr

/-- The admin site object handed to an insert (`self.admin_site`); only its
name is ever consulted in the embedded code. -/
structure AdminSite where
  name : String
deriving DecidableEq, Repr

/-- The slice of Django's `model._meta` that `insert.py` reads. -/
structure Meta where
  app_label : String
  module_name : String
deriving DecidableEq, Repr

/-- A database row of the backing model: a primary key and an opaque payload. -/
structure Obj where
  pk : Int
  payload : String
deriving DecidableEq, Repr

/-- A Django queryset: the rows it would yield plus the ordering annotation
(`order_by` on a lazy queryset records the ordering, it does not eagerly
permute rows). -/
structure QuerySet where
  objs : List Obj
  ordering : List String
deriving DecidableEq, Repr

/-- `model._default_manager.get_query_set()`: all rows, no ordering. -/
def get_query_set (store : List Obj) : QuerySet :=
  { objs := store, ordering := [] }

/-- `qs.order_by(*ordering)`: annotate the queryset with an ordering. -/
def order_by (qs : QuerySet) (keys : List String) : QuerySet :=
  { qs with ordering := keys }

/-- `qs.get(pk=pk)`: the unique row with that primary key, `DoesNotExist` when
there is none, `MultipleObjectsReturned` when several match. -/
def qs_get (qs : QuerySet) (pk : Int) : Except PyError Obj :=
  match qs.objs.filter (fun o => o.pk == pk) with
  | [] => .error .doesNotExist
  | [o] => .ok o
  | _ :: _ :: _ => .error .multipleObjectsReturned

/-- Parse a non-empty all-digit character list as a natural number. -/
def parseNatChars (l : List Char) : Option Nat :=
  if l.isEmpty then none
  else if l.all (fun c => c.isDigit) then
    some (l.foldl (fun n c => n * 10 + (c.toNat - 48)) 0)
  else none

/-- Parse a character list as a Python `int(...)` integer literal. -/
def parseIntChars : List Char → Option Int
  | [] => none
  | '-' :: rest => (parseNatChars rest).map (fun n => -(n : Int))
  | l => (parseNatChars l).map (fun n => (n : Int))

/-- `model._meta.pk.to_python(object_id)` for an integer primary key: parse the
string, raising `ValidationError` when it is not a valid integer. -/
def to_python (s : String) : Except PyError Int :=
  match parseIntChars s.data with
  | some n => .ok n
  | none => .error .validationError

deriving instance DecidableEq for Except

/-- An incoming HTTP request (opaque to the embedded code). -/
inductive Request
  | mk
deriving DecidableEq, Repr

/-- A value placed in a template context dictionary. -/
inductive CtxVal
  | insertVal (site : AdminSite) (meta : Meta)
  | objectVal (o : Option Obj)
deriving DecidableEq, Repr

/-- What a view returns: a plain `HttpResponse(body)` or the result of
`render_to_response(template_chain, context, context_instance=RequestContext(request))`. -/
inductive Response
  | http (body : String)
  | rendered (templates : List String) (context : List (String × CtxVal)) (request : Request)
deriving DecidableEq, Repr

/-- `BaseInsert`: holds the admin site it was constructed with. -/
structure BaseInsert where
  admin_site : AdminSite
deriving DecidableEq, Repr

/-- `BaseInsert.items`: the source is `return NotImplementedError`, which
returns the class as an ordinary value. -/
def BaseInsert.items (_ : BaseInsert) : Except PyError PyValue :=
  .ok .notImplementedErrorVal

/-- `BaseInsert.get_items`: `return NotImplementedError`. -/
def BaseInsert.get_items (_ : BaseInsert) : Except PyError PyValue :=
  .ok .notImplementedErrorVal

/-- `BaseInsert.add_item`: `return NotImplementedError`. -/
def BaseInsert.add_item (_ : BaseInsert) : Except PyError PyValue :=
  .ok .notImplementedErrorVal

/-- `BaseInsert.edit_item(item)`: `return NotImplementedError`. -/
def BaseInsert.edit_item (_ : BaseInsert) (_ : PyValue) : Except PyError PyValue :=
  .ok .notImplementedErrorVal

/-- `BaseInsert.content`: `return NotImplementedError`. -/
def BaseInsert.content (_ : BaseInsert) : Except PyError PyValue :=
  .ok .notImplementedErrorVal

/-- `BaseInsert.render_url`: `return NotImplementedError`. -/
def BaseInsert.render_url (_ : BaseInsert) : Except PyError PyValue :=
  .ok .notImplementedErrorVal

/-- `ModelInsert`: the admin site, the backing model's `_meta`, and the class
attribute `ordering` (`None` or a tuple of field names). -/
structure ModelInsert where
  admin_site : AdminSite
  meta : Meta
  ordering : Option (List String)
deriving DecidableEq, Repr

/-- `self.item_panel_template` as set in `ModelInsert.__init__`. -/
def item_panel_template (m : Meta) : List String :=
  [ "servee/wysiwyg/insert/" ++ m.app_label ++ "/" ++ m.module_name ++ "/_panel.html",
    "servee/wysiwyg/insert/" ++ m.app_label ++ "/_panel.html",
    "servee/wysiwyg/insert/_panelt.html" ]

/-- `self.item_display_template` as set in `ModelInsert.__init__`. -/
def item_display_template (m : Meta) : List String :=
  [ "servee/wysiwyg/insert/" ++ m.app_label ++ "/" ++ m.module_name ++ "/_list.html",
    "servee/wysiwyg/insert/" ++ m.app_label ++ "/_list.html",
    "servee/wysiwyg/insert/_item_list.html" ]

/-- `self.item_detail_template` as set in `ModelInsert.__init__`. -/
def item_detail_template (m : Meta) : List String :=
  [ "servee/wysiwyg/insert/" ++ m.app_label ++ "/" ++ m.module_name ++ "/_detail.html",
    "servee/wysiwyg/insert/" ++ m.app_label ++ "/_detail.html",
    "servee/wysiwyg/insert/_item_detail.html" ]

/-- `self.item_list_template` as set in `ModelInsert.__init__`. -/
def item_list_template (m : Meta) : List String :=
  [ "servee/wysiwyg/insert/" ++ m.app_label ++ "/" ++ m.module_name ++ "/_list.html",
    "servee/wysiwyg/insert/" ++ m.app_label ++ "/_list.html",
    "servee/wysiwyg/insert/_item_list.html" ]

/-- `self.item_render_template` as set in `ModelInsert.__init__`. -/
def item_render_template (m : Meta) : List String :=
  [ "servee/wysiwyg/insert/" ++ m.app_label ++ "/" ++ m.module_name ++ "/_render.html",
    "servee/wysiwyg/insert/" ++ m.app_label ++ "/_render.html",
    "servee/wysiwyg/insert/_item_render.html" ]

/-- Python truthiness of the `ordering` value (`None` and `()` are falsy). -/
def truthy : Option (List String) → Bool
  | none => false
  | some l => !l.isEmpty

/-- `self.ordering or ()`: the ordering when truthy, otherwise the empty tuple. -/
def pyOrUnit : Option (List String) → List String
  | none => []
  | some l => if l.isEmpty then [] else l

/-- `ModelInsert.queryset(self, ordering=None)`:
the default manager's queryset, ordered by the argument when truthy, else by
`self.ordering or ()` when that is truthy, else unordered. -/
def ModelInsert.queryset (ins : ModelInsert) (store : List Obj)
    (ordering : Option (List String)) : QuerySet :=
  let qs := get_query_set store
  let ordering2 : List String :=
    if truthy ordering then ordering.getD [] else pyOrUnit ins.ordering
  if ordering2.isEmpty then qs else order_by qs ordering2

/-- `ModelInsert.items(self)`: `return self.queryset()`. -/
def ModelInsert.items (ins : ModelInsert) (store : List Obj) : QuerySet :=
  ins.queryset store none

/-- `ModelInsert.get_items(self)`: `return self.items()`. -/
def ModelInsert.get_items (ins : ModelInsert) (store : List Obj) : QuerySet :=
  ins.items store

/-- `ModelInsert.get_object(self, object_id)`: convert `object_id` with the
primary-key field's `to_python`, look it up in `self.queryset()`, and return
`None` when the conversion raises `ValidationError` or the lookup raises
`DoesNotExist`; other exceptions propagate. -/
def ModelInsert.get_object (ins : ModelInsert) (store : List Obj)
    (object_id : String) : Except PyError (Option Obj) :=
  let body : Except PyError Obj :=
    match to_python object_id with
    | .error e => .error e
    | .ok pk => qs_get (ins.queryset store none) pk
  match body with
  | .ok o => .ok (some o)
  | .error .doesNotExist => .ok none
  | .error .validationError => .ok none
  | .error e => .error e

/-- The bound view methods of a `ModelInsert` that can be placed in a URL
pattern (the commented-out `add_view` included, so its absence is statable). -/
inductive ViewRef
  | panel_view
  | list_view
  | add_view
  | detail_view
  | render_view
  | delete_view
deriving DecidableEq, Repr

/-- A callable registered in a URL pattern.  `adminWrapped v` is
`wrap(v)`, i.e. the view `v` wrapped by `self.admin_site.admin_view`. -/
inductive Callable
  | adminWrapped (v : ViewRef)
deriving DecidableEq, Repr

/-- One `url(regex, callable, name=...)` entry. -/
structure UrlPattern where
  regex : String
  view : Callable
  name : String
deriving DecidableEq, Repr

/-- The inner `wrap` of `ModelInsert.get_urls`:
`wrapper(*args, **kwargs) = self.admin_site.admin_view(view)(*args, **kwargs)`
(`update_wrapper` only copies function metadata). -/
def wrap {α β : Type} (admin_view : (α → β) → α → β) (view : α → β) : α → β :=
  fun a => admin_view view a

/-- `ModelInsert.get_urls(self)`: the registered URL patterns, in source
order.  `info = (app_label, module_name)` feeds the `"%s_%s_..."` names. -/
def ModelInsert.get_urls (ins : ModelInsert) : List UrlPattern :=
  let info := (ins.meta.app_label, ins.meta.module_name)
  [ { regex := "^panel/$", view := .adminWrapped .panel_view,
      name := info.1 ++ "_" ++ info.2 ++ "_panel" },
    { regex := "^list/$", view := .adminWrapped .list_view,
      name := info.1 ++ "_" ++ info.2 ++ "_list" },
    { regex := "^(.+)/detail/$", view := .adminWrapped .detail_view,
      name := info.1 ++ "_" ++ info.2 ++ "_detail" },
    { regex := "^(.+)/render/$", view := .adminWrapped .render_view,
      name := info.1 ++ "_" ++ info.2 ++ "_render" },
    { regex := "^(.+)/delete/$", view := .adminWrapped .delete_view,
      name := info.1 ++ "_" ++ info.2 ++ "_delete" } ]

/-- The `urls` property: `return self.get_urls()`. -/
def ModelInsert.urls (ins : ModelInsert) : List UrlPattern :=
  ins.get_urls

/-- `ModelInsert.panel_view(self, request)`: render the panel template chain
with context `{"insert": self}`; the store is read-only here. -/
def ModelInsert.panel_view (ins : ModelInsert) (store : List Obj)
    (request : Request) : Except PyError (List Obj × Response) :=
  .ok (store, .rendered (item_panel_template ins.meta)
        [("insert", .insertVal ins.admin_site ins.meta)] request)

/-- `ModelInsert.list_view(self, request)`: render the list template chain
with context `{"insert": self}`; the store is read-only here. -/
def ModelInsert.list_view (ins : ModelInsert) (store : List Obj)
    (request : Request) : Except PyError (List Obj × Response) :=
  .ok (store, .rendered (item_list_template ins.meta)
        [("insert", .insertVal ins.admin_site ins.meta)] request)

/-- `ModelInsert.detail_view(self, request, object_id)`: look the object up by
the unquoted id and render the detail template chain with context
`{"insert": self, "object": obj}`. -/
def ModelInsert.detail_view (ins : ModelInsert) (store : List Obj)
    (unquote : String → String) (request : Request) (object_id : String) :
    Except PyError (List Obj × Response) :=
  match ins.get_object store (unquote object_id) with
  | .error e => .error e
  | .ok obj =>
    .ok (store, .rendered (item_detail_template ins.meta)
          [("insert", .insertVal ins.admin_site ins.meta),
           ("object", .objectVal obj)] request)

/-- `ModelInsert.render_view(self, request, object_id)`: look the object up by
the unquoted id and render the render template chain with context
`{"insert": self, "object": obj}`. -/
def ModelInsert.render_view (ins : ModelInsert) (store : List Obj)
    (unquote : String → String) (request : Request) (object_id : String) :
    Except PyError (List Obj × Response) :=
  match ins.get_object store (unquote object_id) with
  | .error e => .error e
  | .ok obj =>
    .ok (store, .rendered (item_render_template ins.meta)
          [("insert", .insertVal ins.admin_site ins.meta),
           ("object", .objectVal obj)] request)

/-- `obj.delete()` on the result of `get_object`: on an actual object it
deletes the row with that primary key; on `None` Python raises
`AttributeError` (None has no attribute `delete`). -/
def obj_delete (store : List Obj) (o : Option Obj) :
    Except PyError (List Obj) :=
  match o with
  | none => .error .attributeError
  | some obj => .ok (store.filter (fun x => !(x.pk == obj.pk)))

/-- `ModelInsert.delete_view(self, request, object_id)`:
`obj = self.get_object(unquote(object_id)); obj.delete(); return HttpResponse("Deleted")`. -/
def ModelInsert.delete_view (ins : ModelInsert) (store : List Obj)
    (unquote : String → String) (request : Request) (object_id : String) :
    Except PyError (List Obj × Response) :=
  match ins.get_object store (unquote object_id) with
  | .error e => .error e
  | .ok o =>
    match obj_delete store o with
    | .error e => .error e
    | .ok store2 => .ok (store2, .http "Deleted")

/-! ## Spec-side definitions

These follow the wording of the specification's claims, to be compared with
the definitions above that were translated from the source. -/

/-- The string `p` starts the string `s` (on the underlying character lists). -/
def strStarts (p s : String) : Bool :=
  p.data.isPrefixOf s.data

/-- The string `s` ends with the string `tailPart` (on the underlying
character lists). -/
def strEnds (s tailPart : String) : Bool :=
  tailPart.data.isSuffixOf s.data

/-- The claim's notion of a well-formed template fallback chain for suffix
`name`: exactly three paths, most specific to generic, with the suffix `name`
present at every level (the generic third level being some
`servee/wysiwyg/insert/...` path ending in `_<name>.html`). -/
def chain_okb (chain : List String) (m : Meta) (name : String) : Bool :=
  (chain.length == 3) &&
  (chain.getD 0 "" ==
    "servee/wysiwyg/insert/" ++ m.app_label ++ "/" ++ m.module_name
      ++ "/_" ++ name ++ ".html") &&
  (chain.getD 1 "" ==
    "servee/wysiwyg/insert/" ++ m.app_label ++ "/_" ++ name ++ ".html") &&
  strStarts "servee/wysiwyg/insert/" (chain.getD 2 "") &&
  strEnds (chain.getD 2 "") ("_" ++ name ++ ".html")

/-- Claim C2 as stated, over all five template attributes of a `ModelInsert`
(suffixes panel, list, detail, list, render respectively). -/
def c2_claim (m : Meta) : Bool :=
  chain_okb (item_panel_template m) m "panel" &&
  chain_okb (item_display_template m) m "list" &&
  chain_okb (item_detail_template m) m "detail" &&
  chain_okb (item_list_template m) m "list" &&
  chain_okb (item_render_template m) m "render"

/-! ## Helper lemmas -/

/-- `queryset` never changes which rows are yielded, only the ordering
annotation. -/
theorem queryset_objs (ins : ModelInsert) (store : List Obj)
    (ordering : Option (List String)) :
    (ins.queryset store ordering).objs = store := by
  unfold ModelInsert.queryset
  dsimp only
  split <;> split <;> rfl

/-- Under distinct primary keys, filtering a store by a key either yields
nothing (and no row carries the key) or yields exactly one matching row. -/
theorem filter_pk_of_nodup (store : List Obj) (n : Int)
    (hnd : (store.map Obj.pk).Nodup) :
    (store.filter (fun o => o.pk == n) = [] ∧ ∀ o ∈ store, o.pk ≠ n) ∨
    (∃ o, store.filter (fun o => o.pk == n) = [o] ∧ o ∈ store ∧ o.pk = n) := by
  induction store with
  | nil => left; simp
  | cons a rest ih =>
    simp only [List.map_cons, List.nodup_cons] at hnd
    obtain ⟨hna, hnd2⟩ := hnd
    by_cases h : a.pk = n
    · right
      refine ⟨a, ?_, List.mem_cons_self a rest, h⟩
      rw [List.filter_cons_of_pos (by simp [h])]
      have hrest : rest.filter (fun o => o.pk == n) = [] := by
        rw [List.filter_eq_nil_iff]
        intro o ho
        simp only [beq_iff_eq]
        intro hc
        exact hna (by rw [h, ← hc]; exact List.mem_map_of_mem Obj.pk ho)
      rw [hrest]
    · rw [List.filter_cons_of_neg (by simp [h])]
      rcases ih hnd2 with ⟨hnil, hall⟩ | ⟨o, hfo, hmem, hpk⟩
      · left
        refine ⟨hnil, ?_⟩
        intro o ho
        rcases List.mem_cons.mp ho with rfl | ho2
        · exact h
        · exact hall o ho2
      · right
        exact ⟨o, hfo, List.mem_cons_of_mem a hmem, hpk⟩

/-- `get_object` on an id that converts to the primary key of a member of the
store returns exactly that member (primary keys assumed distinct). -/
theorem get_object_of_mem (ins : ModelInsert) (store : List Obj) (oid : String)
    (hnd : (store.map Obj.pk).Nodup) (o : Obj) (ho : o ∈ store)
    (hpk : to_python oid = Except.ok o.pk) :
    ins.get_object store oid = Except.ok (some o) := by
  have hfilter : store.filter (fun x => x.pk == o.pk) = [o] := by
    rcases filter_pk_of_nodup store o.pk hnd with ⟨_, hall⟩ | ⟨o2, hfo, hmem, hpk2⟩
    · exact absurd rfl (hall o ho)
    · rw [hfo, List.inj_on_of_nodup_map hnd hmem ho hpk2]
  unfold ModelInsert.get_object qs_get
  rw [queryset_objs, hpk]
  dsimp only
  rw [hfilter]

/-! ## Claim theorems -/

/-- Claim C1: `get_urls` returns exactly five URL patterns, one per admin
sub-view: `panel_view` at `^panel/$`, `list_view` at `^list/$`, `detail_view`
at `^(.+)/detail/$`, `render_view` at `^(.+)/render/$` and `delete_view` at
`^(.+)/delete/$`, each named `<app_label>_<module_name>_<suffix>` with suffix
panel, list, detail, render, delete respectively; no `add` pattern (in
particular no wrapped `add_view`) is registered. -/
theorem claim_C1_get_urls (ins : ModelInsert) :
    ins.get_urls.length = 5 ∧
    ins.get_urls = [
      ⟨"^panel/$", .adminWrapped .panel_view,
        ins.meta.app_label ++ "_" ++ ins.meta.module_name ++ "_panel"⟩,
      ⟨"^list/$", .adminWrapped .list_view,
        ins.meta.app_label ++ "_" ++ ins.meta.module_name ++ "_list"⟩,
      ⟨"^(.+)/detail/$", .adminWrapped .detail_view,
        ins.meta.app_label ++ "_" ++ ins.meta.module_name ++ "_detail"⟩,
      ⟨"^(.+)/render/$", .adminWrapped .render_view,
        ins.meta.app_label ++ "_" ++ ins.meta.module_name ++ "_render"⟩,
      ⟨"^(.+)/delete/$", .adminWrapped .delete_view,
        ins.meta.app_label ++ "_" ++ ins.meta.module_name ++ "_delete"⟩ ] ∧
    ∀ p ∈ ins.get_urls, p.view ≠ Callable.adminWrapped ViewRef.add_view := by
  refine ⟨rfl, rfl, ?_⟩
  intro p hp
  simp only [ModelInsert.get_urls, List.mem_cons, List.not_mem_nil, or_false] at hp
  rcases hp with rfl | rfl | rfl | rfl | rfl <;> simp

/-- Claim C3 (code bug evidence): each stub method of `BaseInsert`
(`items`, `get_items`, `add_item`, `edit_item`, `content`, `render_url`)
evaluates to `Except.ok` of the `NotImplementedError` class used as a plain
value — the call returns an ordinary value, it does not raise, because the
source writes `return NotImplementedError` instead of
`raise NotImplementedError`. -/
theorem claim_C3_stub_methods_return :
    BaseInsert.items ⟨⟨"admin"⟩⟩ = Except.ok PyValue.notImplementedErrorVal ∧
    BaseInsert.get_items ⟨⟨"admin"⟩⟩ = Except.ok PyValue.notImplementedErrorVal ∧
    BaseInsert.add_item ⟨⟨"admin"⟩⟩ = Except.ok PyValue.notImplementedErrorVal ∧
    BaseInsert.edit_item ⟨⟨"admin"⟩⟩ PyValue.notImplementedErrorVal
      = Except.ok PyValue.notImplementedErrorVal ∧
    BaseInsert.content ⟨⟨"admin"⟩⟩ = Except.ok PyValue.notImplementedErrorVal ∧
    BaseInsert.render_url ⟨⟨"admin"⟩⟩ = Except.ok PyValue.notImplementedErrorVal :=
  ⟨rfl, rfl, rfl, rfl, rfl, rfl⟩

/-- Claim C5: the browsable list of items is exactly the backing model's
queryset: `get_items()` equals `items()`, which equals `queryset()`, which is
the default manager's query set with `self.ordering` applied exactly when it
is set (truthy); the rows of the default manager's query set are the store. -/
theorem claim_C5_items_chain (ins : ModelInsert) (store : List Obj) :
    ins.get_items store = ins.items store ∧
    ins.items store = ins.queryset store none ∧
    ins.queryset store none =
      (if truthy ins.ordering then
        order_by (get_query_set store) (ins.ordering.getD [])
      else get_query_set store) ∧
    (get_query_set store).objs = store := by
  refine ⟨rfl, rfl, ?_, rfl⟩
  cases hord : ins.ordering with
  | none => simp [ModelInsert.queryset, truthy, pyOrUnit, hord]
  | some l =>
    cases l with
    | nil => simp [ModelInsert.queryset, truthy, pyOrUnit, hord]
    | cons a as => simp [ModelInsert.queryset, truthy, pyOrUnit, hord]

/-- Claim C6: every view callable registered by `get_urls` is the
corresponding view wrapped by `self.admin_site.admin_view`; invoking the
wrapper invokes `admin_view(view)` on the same arguments; and the `urls`
property returns exactly `get_urls()`. -/
theorem claim_C6_wrapping (ins : ModelInsert) {α β : Type}
    (admin_view : (α → β) → α → β) (view : α → β) (a : α) :
    wrap admin_view view a = admin_view view a ∧
    ins.urls = ins.get_urls ∧
    ins.get_urls.map UrlPattern.view =
      [ .adminWrapped .panel_view, .adminWrapped .list_view,
        .adminWrapped .detail_view, .adminWrapped .render_view,
        .adminWrapped .delete_view ] :=
  ⟨rfl, rfl, rfl⟩

/-- Claim C7: `detail_view` and `render_view` are thin read views: each looks
the object up with `get_object` on the unquoted id and renders its template
chain with context exactly `{"insert": self, "object": obj}` (the object may
be `none`), returning the store unchanged — no stored object is modified. -/
theorem claim_C7_read_views (ins : ModelInsert) (store : List Obj)
    (unquote : String → String) (request : Request) (oid : String) :
    ins.detail_view store unquote request oid =
      (ins.get_object store (unquote oid)).map (fun obj =>
        (store, Response.rendered (item_detail_template ins.meta)
          [("insert", CtxVal.insertVal ins.admin_site ins.meta),
           ("object", CtxVal.objectVal obj)] request)) ∧
    ins.render_view store unquote request oid =
      (ins.get_object store (unquote oid)).map (fun obj =>
        (store, Response.rendered (item_render_template ins.meta)
          [("insert", CtxVal.insertVal ins.admin_site ins.meta),
           ("object", CtxVal.objectVal obj)] request)) := by
  constructor
  · unfold ModelInsert.detail_view
    cases ins.get_object store (unquote oid) <;> rfl
  · unfold ModelInsert.render_view
    cases ins.get_object store (unquote oid) <;> rfl

/-- Claim C9: when `get_object` comes back `None` (invalid or non-existent
primary key), `delete_view` does not produce the `"Deleted"` response and
deletes nothing: the unguarded `obj.delete()` on `None` raises
`AttributeError`, so the view returns no new store and the data is
unchanged. -/
theorem claim_C9_delete_view_on_none (ins : ModelInsert) (store : List Obj)
    (unquote : String → String) (request : Request) (oid : String)
    (h : ins.get_object store (unquote oid) = Except.ok none) :
    ins.delete_view store unquote request oid =
      Except.error PyError.attributeError := by
  unfold ModelInsert.delete_view
  rw [h]
  rfl

/-- Claim C10: `queryset` is total in its ordering handling: when the
argument is falsy and `self.ordering` is falsy the default query set comes
back with no `order_by` applied (the `self.ordering or ()` coercion makes
`None` an empty tuple, never unpacked), and `order_by` is applied exactly
when a truthy ordering is available from the argument or from
`self.ordering`. -/
theorem claim_C10_queryset_total (ins : ModelInsert) (store : List Obj)
    (ord : Option (List String)) :
    ins.queryset store ord =
      (if truthy ord then order_by (get_query_set store) (ord.getD [])
       else if truthy ins.ordering then
         order_by (get_query_set store) (ins.ordering.getD [])
       else get_query_set store) ∧
    (get_query_set store).ordering = [] := by
  refine ⟨?_, rfl⟩
  cases hord : ord with
  | none =>
    cases hself : ins.ordering with
    | none => simp [ModelInsert.queryset, truthy, pyOrUnit, hself]
    | some l =>
      cases l with
      | nil => simp [ModelInsert.queryset, truthy, pyOrUnit, hself]
      | cons a as => simp [ModelInsert.queryset, truthy, pyOrUnit, hself]
  | some l =>
    cases l with
    | nil =>
      cases hself : ins.ordering with
      | none => simp [ModelInsert.queryset, truthy, pyOrUnit, hself]
      | some l2 =>
        cases l2 with
        | nil => simp [ModelInsert.queryset, truthy, pyOrUnit, hself]
        | cons a as => simp [ModelInsert.queryset, truthy, pyOrUnit, hself]
    | cons a as => simp [ModelInsert.queryset, truthy, pyOrUnit]

/-- Claim C2, counterexample: the claim as stated (every one of the five
template attributes is a three-path fallback chain carrying its suffix at
every level) is false at the concrete model meta `("app", "mod")`, because
the generic third path of `item_panel_template` is
`servee/wysiwyg/insert/_panelt.html`, which does not end in `_panel.html`. -/
theorem claim_C2_counterexample : c2_claim ⟨"app", "mod"⟩ = false := by
  decide

/-- Claim C2, amended: each of the five template attributes is a fallback
chain of exactly three paths ordered most-specific to generic; the display,
detail, list and render chains carry their suffix (list, detail, list,
render) at every level, while the panel chain uses the `panel` suffix at the
app/model and app levels but its generic third path is the literal
`servee/wysiwyg/insert/_panelt.html`, which does not end in `_panel.html`. -/
theorem claim_C2_amended_chains (m : Meta) :
    chain_okb (item_display_template m) m "list" = true ∧
    chain_okb (item_detail_template m) m "detail" = true ∧
    chain_okb (item_list_template m) m "list" = true ∧
    chain_okb (item_render_template m) m "render" = true ∧
    item_panel_template m = [
      "servee/wysiwyg/insert/" ++ m.app_label ++ "/" ++ m.module_name
        ++ "/_" ++ "panel" ++ ".html",
      "servee/wysiwyg/insert/" ++ m.app_label ++ "/_" ++ "panel" ++ ".html",
      "servee/wysiwyg/insert/_panelt.html" ] ∧
    strEnds "servee/wysiwyg/insert/_panelt.html" ("_" ++ "panel" ++ ".html")
      = false := by
  refine ⟨?_, ?_, ?_, ?_, ?_, by decide⟩
  · simp only [chain_okb, item_display_template, List.getD, List.get?,
      String.append_assoc]
    simp [strStarts, strEnds]
    decide
  · simp only [chain_okb, item_detail_template, List.getD, List.get?,
      String.append_assoc]
    simp [strStarts, strEnds]
    decide
  · simp only [chain_okb, item_list_template, List.getD, List.get?,
      String.append_assoc]
    simp [strStarts, strEnds]
    decide
  · simp only [chain_okb, item_render_template, List.getD, List.get?,
      String.append_assoc]
    simp [strStarts, strEnds]
    decide
  · simp only [item_panel_template, String.append_assoc]
    rfl

/-- Claim C4: for an `object_id` whose unquoted form converts to the primary
key of an object present in the store (keys distinct), `delete_view` deletes
exactly that object via the model layer and returns the HTTP response with
body `"Deleted"`; every other object is unaffected. -/
theorem claim_C4_delete_view_deletes (ins : ModelInsert) (store : List Obj)
    (unquote : String → String) (request : Request) (oid : String) (obj : Obj)
    (hnd : (store.map Obj.pk).Nodup)
    (hmem : obj ∈ store)
    (hpk : to_python (unquote oid) = Except.ok obj.pk) :
    ins.delete_view store unquote request oid =
      Except.ok (store.filter (fun x => !(x.pk == obj.pk)),
        Response.http "Deleted") ∧
    obj ∉ store.filter (fun x => !(x.pk == obj.pk)) ∧
    ∀ x ∈ store, x ≠ obj → x ∈ store.filter (fun x => !(x.pk == obj.pk)) := by
  refine ⟨?_, ?_, ?_⟩
  · unfold ModelInsert.delete_view
    rw [get_object_of_mem ins store (unquote oid) hnd obj hmem hpk]
    rfl
  · simp [List.mem_filter]
  · intro x hx hne
    rw [List.mem_filter]
    refine ⟨hx, ?_⟩
    simp only [Bool.not_eq_eq_eq_not, Bool.not_true, beq_eq_false_iff_ne, ne_eq]
    intro hc
    exact hne (List.inj_on_of_nodup_map hnd hx hmem hc)

/-- `to_python` either parses or raises exactly `ValidationError`. -/
theorem to_python_shape (oid : String) :
    (∃ n, to_python oid = Except.ok n) ∨
    to_python oid = Except.error PyError.validationError := by
  unfold to_python
  cases parseIntChars oid.data with
  | none => right; rfl
  | some n => left; exact ⟨n, rfl⟩

/-- `get_object` swallows the `ValidationError` of an unparsable id. -/
theorem get_object_validation_err (ins : ModelInsert) (store : List Obj)
    (oid : String)
    (h : to_python oid = Except.error PyError.validationError) :
    ins.get_object store oid = Except.ok none := by
  unfold ModelInsert.get_object
  rw [h]

/-- `get_object` swallows the `DoesNotExist` of an absent primary key. -/
theorem get_object_not_found (ins : ModelInsert) (store : List Obj)
    (oid : String) (n : Int) (hok : to_python oid = Except.ok n)
    (hnil : store.filter (fun o => o.pk == n) = []) :
    ins.get_object store oid = Except.ok none := by
  unfold ModelInsert.get_object qs_get
  rw [queryset_objs, hok]
  dsimp only
  rw [hnil]

/-- Claim C8: with distinct primary keys, `get_object(object_id)` never
raises (it always produces an `Except.ok` result), it returns `None` exactly
when the id fails validation against the primary-key field or no object with
that key is in the store, and otherwise it returns the unique matching
instance. -/
theorem claim_C8_get_object (ins : ModelInsert) (store : List Obj)
    (oid : String) (hnd : (store.map Obj.pk).Nodup) :
    (∃ r, ins.get_object store oid = Except.ok r) ∧
    (ins.get_object store oid = Except.ok none ↔
      to_python oid = Except.error PyError.validationError ∨
      ∀ o ∈ store, to_python oid ≠ Except.ok o.pk) ∧
    (∀ o ∈ store, to_python oid = Except.ok o.pk →
      ins.get_object store oid = Except.ok (some o)) := by
  rcases to_python_shape oid with ⟨n, hok⟩ | herr
  · rcases filter_pk_of_nodup store n hnd with ⟨hnil, hall⟩ | ⟨o2, hfo, hmem, hpk2⟩
    · have hno := get_object_not_found ins store oid n hok hnil
      refine ⟨⟨none, hno⟩, ⟨fun _ => ?_, fun _ => hno⟩, ?_⟩
      · right
        intro o ho hc
        rw [hok] at hc
        have hn : n = o.pk := by injection hc
        exact hall o ho hn.symm
      · intro o ho hpk
        rw [hok] at hpk
        have hn : n = o.pk := by injection hpk
        exact absurd hn.symm (hall o ho)
    · have hsome : ins.get_object store oid = Except.ok (some o2) :=
        get_object_of_mem ins store oid hnd o2 hmem (by rw [hok, hpk2])
      refine ⟨⟨some o2, hsome⟩, ⟨?_, ?_⟩, ?_⟩
      · intro hcontra
        rw [hsome] at hcontra
        simp at hcontra
      · intro hrhs
        rcases hrhs with herr2 | hall2
        · rw [hok] at herr2
          simp at herr2
        · exact absurd (by rw [hok, hpk2]) (hall2 o2 hmem)
      · intro o ho hpk
        exact get_object_of_mem ins store oid hnd o ho hpk
  · have hno := get_object_validation_err ins store oid herr
    refine ⟨⟨none, hno⟩, ⟨fun _ => Or.inl herr, fun _ => hno⟩, ?_⟩
    intro o ho hpk
    rw [herr] at hpk
    simp at hpk

/-- Witness for claim C4: on the store `[{pk 1}, {pk 2}]`, deleting id `"1"`
returns `"Deleted"` and leaves only the object with key 2. -/
theorem claim_C4_witness :
    ((([⟨1, "a"⟩, ⟨2, "b"⟩] : List Obj).map Obj.pk).Nodup) ∧
    ((⟨1, "a"⟩ : Obj) ∈ ([⟨1, "a"⟩, ⟨2, "b"⟩] : List Obj)) ∧
    (to_python (id "1") = Except.ok (⟨1, "a"⟩ : Obj).pk) ∧
    (ModelInsert.delete_view ⟨⟨"admin"⟩, ⟨"app", "mod"⟩, none⟩
        [⟨1, "a"⟩, ⟨2, "b"⟩] id Request.mk "1" =
      Except.ok (([⟨1, "a"⟩, ⟨2, "b"⟩] : List Obj).filter
          (fun x => !(x.pk == (⟨1, "a"⟩ : Obj).pk)),
        Response.http "Deleted")) :=
  ⟨by decide, by decide, by decide,
    (claim_C4_delete_view_deletes ⟨⟨"admin"⟩, ⟨"app", "mod"⟩, none⟩
      [⟨1, "a"⟩, ⟨2, "b"⟩] id Request.mk "1" ⟨1, "a"⟩
      (by decide) (by decide) (by decide)).1⟩

/-- Witness for claim C8: on the store `[{pk 1}, {pk 2}]` with id `"2"`,
`get_object` does not raise, the `None` characterisation holds, and every
member whose key the id parses to is returned. -/
theorem claim_C8_witness :
    ((([⟨1, "a"⟩, ⟨2, "b"⟩] : List Obj).map Obj.pk).Nodup) ∧
    ((∃ r, ModelInsert.get_object ⟨⟨"admin"⟩, ⟨"app", "mod"⟩, none⟩
        [⟨1, "a"⟩, ⟨2, "b"⟩] "2" = Except.ok r) ∧
     (ModelInsert.get_object ⟨⟨"admin"⟩, ⟨"app", "mod"⟩, none⟩
        [⟨1, "a"⟩, ⟨2, "b"⟩] "2" = Except.ok none ↔
       to_python "2" = Except.error PyError.validationError ∨
       ∀ o ∈ ([⟨1, "a"⟩, ⟨2, "b"⟩] : List Obj),
         to_python "2" ≠ Except.ok o.pk) ∧
     (∀ o ∈ ([⟨1, "a"⟩, ⟨2, "b"⟩] : List Obj),
       to_python "2" = Except.ok o.pk →
       ModelInsert.get_object ⟨⟨"admin"⟩, ⟨"app", "mod"⟩, none⟩
         [⟨1, "a"⟩, ⟨2, "b"⟩] "2" = Except.ok (some o))) :=
  ⟨by decide,
    claim_C8_get_object ⟨⟨"admin"⟩, ⟨"app", "mod"⟩, none⟩
      [⟨1, "a"⟩, ⟨2, "b"⟩] "2" (by decide)⟩

/-- Witness for claim C9: on the empty store, `get_object` of id `"7"` is
`None` and `delete_view` fails with `AttributeError` instead of answering
`"Deleted"`. -/
theorem claim_C9_witness :
    (ModelInsert.get_object ⟨⟨"admin"⟩, ⟨"app", "mod"⟩, none⟩ [] (id "7") =
      Except.ok none) ∧
    (ModelInsert.delete_view ⟨⟨"admin"⟩, ⟨"app", "mod"⟩, none⟩ [] id
        Request.mk "7" =
      Except.error PyError.attributeError) :=
  ⟨by decide,
    claim_C9_delete_view_on_none ⟨⟨"admin"⟩, ⟨"app", "mod"⟩, none⟩ [] id
      Request.mk "7" (by decide)⟩
